import Mathlib

/-!
Shallow embedding of the omicron VPC datastore core
(`nexus/db-queries/src/db/datastore/vpc.rs`) and the sled filter algebra
(`nexus/types/src/deployment/planning_input.rs`), with theorems checking
the natural-language specification against the code.

Database tables are embedded as lists of row structures; `time_deleted`
columns are `Option Nat` timestamps (a row is live iff `none`); UUID
columns are `Nat`; SQL soft-delete `UPDATE`s are maps over the row list;
queries are list comprehensions mirroring the diesel joins and filters.
-/

namespace Omicron

/-! ## Sled filter algebra (`planning_input.rs`) -/

/-- `SledProvisionPolicy` from `views`: whether new resources may land on the sled. -/
inductive SledProvisionPolicy
  | provisionable
  | nonProvisionable
deriving DecidableEq, Repr

/-- `SledPolicy`: operator intent for a sled. -/
inductive SledPolicy
  | inService (provisionPolicy : SledProvisionPolicy)
  | expunged
deriving DecidableEq, Repr

/-- `SledState`: observed lifecycle state of a sled. -/
inductive SledState
  | active
  | decommissioned
deriving DecidableEq, Repr

/-- `SledFilter` from `planning_input.rs` (alphabetical, as in the source). -/
inductive SledFilter
  | commissioned
  | decommissioned
  | discretionary
  | inService
  | queryDuringInventory
  | reservationCreate
  | vpcFirewall
deriving DecidableEq, Repr

/-- `SledPolicy::matches` from `planning_input.rs` lines 318-374: match on the
policy first, then on the filter, exactly as the source `match` arms. -/
def SledPolicy.matches : SledPolicy → SledFilter → Bool
  | .inService .provisionable, f =>
    match f with
    | .commissioned => true
    | .decommissioned => false
    | .discretionary => true
    | .inService => true
    | .queryDuringInventory => true
    | .reservationCreate => true
    | .vpcFirewall => true
  | .inService .nonProvisionable, f =>
    match f with
    | .commissioned => true
    | .decommissioned => false
    | .discretionary => false
    | .inService => true
    | .queryDuringInventory => true
    | .reservationCreate => false
    | .vpcFirewall => true
  | .expunged, f =>
    match f with
    | .commissioned => true
    | .decommissioned => true
    | .discretionary => false
    | .inService => false
    | .queryDuringInventory => false
    | .reservationCreate => false
    | .vpcFirewall => false

/-- `SledState::matches` from `planning_input.rs` lines 392-414. -/
def SledState.matches : SledState → SledFilter → Bool
  | .active, f =>
    match f with
    | .commissioned => true
    | .decommissioned => false
    | .discretionary => true
    | .inService => true
    | .queryDuringInventory => true
    | .reservationCreate => true
    | .vpcFirewall => true
  | .decommissioned, f =>
    match f with
    | .commissioned => false
    | .decommissioned => true
    | .discretionary => false
    | .inService => false
    | .queryDuringInventory => false
    | .reservationCreate => false
    | .vpcFirewall => false

/-- `SledFilter::matches_policy_and_state` from `planning_input.rs` lines 301-310. -/
def SledFilter.matchesPolicyAndState (f : SledFilter) (policy : SledPolicy)
    (state : SledState) : Bool :=
  policy.matches f && state.matches f

/-- Spec truth table for policies (spec section 4.6, rows = policy, cols = filter).
This definition is written from the spec table, to be compared against
`SledPolicy.matches` taken from the source. -/
def specPolicyTable : SledPolicy → SledFilter → Bool
  | .inService .provisionable, f => f ≠ .decommissioned
  | .inService .nonProvisionable, f =>
    f ≠ .decommissioned && f ≠ .discretionary && f ≠ .reservationCreate
  | .expunged, f => f = .commissioned || f = .decommissioned

/-- Spec truth table for sled states (spec section 4.6). This definition is
written from the spec table, to be compared against `SledState.matches`
taken from the source. -/
def specStateTable : SledState → SledFilter → Bool
  | .active, f => f ≠ .decommissioned
  | .decommissioned, f => f = .decommissioned

/-! ## Fabric resolver (`vpc_resolve_to_sleds`) data model

Row types for the tables joined by `vpc_resolve_to_sleds`: `sled`,
`instance_network_interface`, `instance`, `vmm`,
`service_network_interface`, `bp_omicron_zone` and `bp_target`. -/

/-- A row of the `sled` table (the columns the resolver reads). -/
structure SledRow where
  id : Nat
  timeDeleted : Option Nat
  policy : SledPolicy
  state : SledState
deriving DecidableEq, Repr

/-- A row of `instance_network_interface` (the columns the resolver reads). -/
structure InstanceNicRow where
  id : Nat
  vpcId : Nat
  instanceId : Nat
  timeDeleted : Option Nat
deriving DecidableEq, Repr

/-- A row of `instance` (the columns the resolver reads). -/
structure InstanceRow where
  id : Nat
  activePropolisId : Option Nat
  timeDeleted : Option Nat
deriving DecidableEq, Repr

/-- A row of `vmm` (the columns the resolver reads). -/
structure VmmRow where
  id : Nat
  sledId : Nat
  timeDeleted : Option Nat
deriving DecidableEq, Repr

/-- A row of `service_network_interface` (the columns the resolver reads). -/
structure ServiceNicRow where
  id : Nat
  vpcId : Nat
  serviceId : Nat
  timeDeleted : Option Nat
deriving DecidableEq, Repr

/-- `BlueprintZoneDisposition`: per-zone lifecycle tag. -/
inductive BlueprintZoneDisposition
  | inService
  | quiesced
  | expunged
deriving DecidableEq, Repr

/-- A row of `bp_omicron_zone` (the columns the resolver reads). -/
structure BpOmicronZoneRow where
  blueprintId : Nat
  id : Nat
  sledId : Nat
  disposition : BlueprintZoneDisposition
deriving DecidableEq, Repr

/-- A row of `bp_target`. The resolver reads `blueprint_id` and `version`;
`enabled` is carried so that its irrelevance is a provable statement. -/
structure BpTargetRow where
  blueprintId : Nat
  version : Nat
  enabled : Bool
deriving DecidableEq, Repr

/-- The database tables consulted by `vpc_resolve_to_sleds`. -/
structure ResolverDb where
  sleds : List SledRow
  instanceNics : List InstanceNicRow
  instances : List InstanceRow
  vmms : List VmmRow
  serviceNics : List ServiceNicRow
  bpOmicronZones : List BpOmicronZoneRow
  bpTargets : List BpTargetRow
deriving DecidableEq, Repr

/-- Modelled from the spec: `BlueprintZoneFilter::ShouldDeployVpcFirewallRules`
(the filter's definition lives outside the sampled sources). Per spec
section 4.5 the zone's disposition must be in {InService, Quiesced};
Expunged zones are excluded. -/
def shouldDeployVpcFirewallRules : BlueprintZoneDisposition → Bool
  | .inService => true
  | .quiesced => true
  | .expunged => false

/-- Modelled from the spec: `ApplySledFilterExt::sled_filter` (defined outside
the sampled sources) expands to the database predicate
`policy IN SledPolicy::all_matching(filter) AND state IN
SledState::all_matching(filter)` (spec section 4.6), which coincides with
`SledFilter::matches_policy_and_state` applied to the row's columns. -/
def sledRowMatchesFilter (f : SledFilter) (s : SledRow) : Bool :=
  f.matchesPolicyAndState s.policy s.state

/-- The `instance_query` of `vpc_resolve_to_sleds` (vpc.rs lines 667-678):
`instance_network_interface` joined to `instance` (on `instance_id`), to
`vmm` (on `vmm.id = instance.active_propolis_id`) and to `sled` (on
`sled.id = vmm.sled_id`), keeping live NICs of the VPC, live instances and
live VMMs, selecting the sled row. -/
def instanceQuery (db : ResolverDb) (vpcId : Nat) : List SledRow :=
  db.instanceNics.flatMap fun nic =>
    db.instances.flatMap fun inst =>
      db.vmms.flatMap fun vmm =>
        db.sleds.filterMap fun sled =>
          if nic.instanceId = inst.id
              ∧ inst.activePropolisId = some vmm.id
              ∧ sled.id = vmm.sledId
              ∧ nic.vpcId = vpcId
              ∧ nic.timeDeleted = none
              ∧ inst.timeDeleted = none
              ∧ vmm.timeDeleted = none
          then some sled else none

/-- The `service_query` of `vpc_resolve_to_sleds` (vpc.rs lines 680-712):
`service_network_interface` joined to `bp_omicron_zone` (on
`bp_omicron_zone.id = service_id`), to `bp_target` (on `blueprint_id`),
and to `sled` (on `sled.id = bp_omicron_zone.sled_id`); the joined target
row must carry the maximal version (the `eq_any` against the
`ORDER BY version DESC LIMIT 1` subquery); the zone passes
`BlueprintZoneFilter::ShouldDeployVpcFirewallRules`; the NIC is a live NIC
of the VPC. The `enabled` column is intentionally not consulted. -/
def serviceQuery (db : ResolverDb) (vpcId : Nat) : List SledRow :=
  db.serviceNics.flatMap fun nic =>
    db.bpOmicronZones.flatMap fun zone =>
      db.bpTargets.flatMap fun target =>
        db.sleds.filterMap fun sled =>
          if zone.id = nic.serviceId
              ∧ zone.blueprintId = target.blueprintId
              ∧ sled.id = zone.sledId
              ∧ (∀ t ∈ db.bpTargets, t.version ≤ target.version)
              ∧ shouldDeployVpcFirewallRules zone.disposition = true
              ∧ nic.vpcId = vpcId
              ∧ nic.timeDeleted = none
          then some sled else none

/-- The base `sleds` query of `vpc_resolve_to_sleds` (vpc.rs lines 714-721):
live sled rows passing `SledFilter::VpcFirewall`, and, when the caller's
allow-list is non-empty, restricted to ids in the allow-list. -/
def vpcFirewallSleds (db : ResolverDb) (sledsFilter : List Nat) : List SledRow :=
  db.sleds.filter fun sled =>
    decide (sled.timeDeleted = none)
      && sledRowMatchesFilter .vpcFirewall sled
      && (sledsFilter.isEmpty || decide (sled.id ∈ sledsFilter))

/-- SQL `UNION`: concatenation with duplicate rows eliminated. -/
def sqlUnion (xs ys : List SledRow) : List SledRow :=
  (xs ++ ys).dedup

/-- SQL `INTERSECT`: rows of `xs` present in `ys`, duplicates eliminated. -/
def sqlIntersect (xs ys : List SledRow) : List SledRow :=
  (xs.filter fun x => decide (x ∈ ys)).dedup

/-- `vpc_resolve_to_sleds` (vpc.rs lines 649-729):
`sleds INTERSECT (instance_query UNION service_query)`. -/
def vpc_resolve_to_sleds (db : ResolverDb) (vpcId : Nat)
    (sledsFilter : List Nat) : List SledRow :=
  sqlIntersect (vpcFirewallSleds db sledsFilter)
    (sqlUnion (instanceQuery db vpcId) (serviceQuery db vpcId))

/-- Guest path of spec section 4.5 (a): a live `instance_network_interface`
row with this `vpc_id`, belonging to a live instance whose
`active_propolis_id` names a live VMM assigned to this sled. -/
def guestPathSled (db : ResolverDb) (vpcId : Nat) (sled : SledRow) : Prop :=
  ∃ nic ∈ db.instanceNics, ∃ inst ∈ db.instances, ∃ vmm ∈ db.vmms,
    nic.instanceId = inst.id
    ∧ inst.activePropolisId = some vmm.id
    ∧ sled.id = vmm.sledId
    ∧ nic.vpcId = vpcId
    ∧ nic.timeDeleted = none
    ∧ inst.timeDeleted = none
    ∧ vmm.timeDeleted = none

/-- Service path of spec section 4.5 (b): a live `service_network_interface`
row with this `vpc_id` whose `service_id` is a zone on this sled in the
maximum-version target blueprint, with disposition InService or Quiesced. -/
def servicePathSled (db : ResolverDb) (vpcId : Nat) (sled : SledRow) : Prop :=
  ∃ nic ∈ db.serviceNics, ∃ zone ∈ db.bpOmicronZones, ∃ target ∈ db.bpTargets,
    zone.id = nic.serviceId
    ∧ zone.blueprintId = target.blueprintId
    ∧ sled.id = zone.sledId
    ∧ (∀ t ∈ db.bpTargets, t.version ≤ target.version)
    ∧ shouldDeployVpcFirewallRules zone.disposition = true
    ∧ nic.vpcId = vpcId
    ∧ nic.timeDeleted = none

/-- Setting the `enabled` flag of every `bp_target` row according to an
arbitrary reassignment, leaving every other column and table untouched. -/
def setEnabled (db : ResolverDb) (e : BpTargetRow → Bool) : ResolverDb :=
  { db with bpTargets := db.bpTargets.map fun t => { t with enabled := e t } }

/-! ## VPC datastore state (vpc, vpc_subnet, vpc_firewall_rule, vpc_router) -/

/-- A row of the `vpc` table (the columns the verified operations read). -/
structure VpcRow where
  id : Nat
  timeDeleted : Option Nat
  subnetGen : Nat
  firewallGen : Nat
  systemRouterId : Nat
deriving DecidableEq, Repr

/-- A row of `vpc_subnet` (the columns the verified operations read). -/
structure VpcSubnetRow where
  id : Nat
  vpcId : Nat
  timeDeleted : Option Nat
deriving DecidableEq, Repr

/-- A row of `vpc_firewall_rule` (the columns the verified operations read;
`name` is the sort key of listing and replacement). -/
structure FirewallRuleRow where
  id : Nat
  vpcId : Nat
  name : String
  timeDeleted : Option Nat
deriving DecidableEq, Repr

/-- `VpcRouterKind`. -/
inductive VpcRouterKind
  | system
  | custom
deriving DecidableEq, Repr

/-- A row of `vpc_router` (the columns the verified operations read). -/
structure VpcRouterRow where
  id : Nat
  vpcId : Nat
  kind : VpcRouterKind
  timeDeleted : Option Nat
deriving DecidableEq, Repr

/-- The datastore state for the VPC child-resource operations. -/
structure DbState where
  vpcs : List VpcRow
  subnets : List VpcSubnetRow
  firewallRules : List FirewallRuleRow
  routers : List VpcRouterRow
deriving DecidableEq, Repr

/-- The resource types named by the errors of the verified operations. -/
inductive ResourceKind
  | project
  | vpc
  | vpcRouter
deriving DecidableEq, Repr

/-- The abstract error kinds surfaced by the verified operations
(spec section 7). -/
inductive OpError
  | objectNotFound (t : ResourceKind) (id : Nat)
  | invalidRequest (message : String)
  | insufficientCapacity (message internalMessage : String)
  | conflict (t : ResourceKind) (name : String)
deriving DecidableEq, Repr

/-- The `UPDATE ... SET time_deleted = now WHERE time_deleted IS NULL AND
vpc_id = ?` of `vpc_update_firewall_rules` / `vpc_delete_all_firewall_rules`
applied to the `vpc_firewall_rule` table. -/
def softDeleteVpcRules (rules : List FirewallRuleRow) (vpcId now : Nat) :
    List FirewallRuleRow :=
  rules.map fun r =>
    if r.timeDeleted = none ∧ r.vpcId = vpcId then
      { r with timeDeleted := some now }
    else r

/-- The filter of `vpc_list_firewall_rules`: live rules of the VPC. -/
def liveVpcRule (vpcId : Nat) (r : FirewallRuleRow) : Bool :=
  decide (r.timeDeleted = none ∧ r.vpcId = vpcId)

/-- The comparison used to sort rules, mirroring
`rules.sort_by_key(|r| r.name().to_string())` and `ORDER BY name ASC`. -/
def fwLe (a b : FirewallRuleRow) : Bool :=
  decide (a.name ≤ b.name)

/-- Stable sort of rules by name ascending (`Vec::sort_by_key` is a stable
merge sort). -/
def sortRulesByName (rules : List FirewallRuleRow) : List FirewallRuleRow :=
  rules.mergeSort fwLe

/-- `vpc_list_firewall_rules` (vpc.rs lines 508-530): live rules with this
`vpc_id`, ordered by name ascending. -/
def vpc_list_firewall_rules (db : DbState) (vpcId : Nat) :
    List FirewallRuleRow :=
  (db.firewallRules.filter (liveVpcRule vpcId)).mergeSort fwLe

/-- `vpc_delete_all_firewall_rules` (vpc.rs lines 532-556): soft-delete every
live rule of the VPC. -/
def vpc_delete_all_firewall_rules (db : DbState) (vpcId now : Nat) :
    Except OpError Unit × DbState :=
  (.ok (), { db with firewallRules := softDeleteVpcRules db.firewallRules vpcId now })

/-- Whether the parent `vpc` row is present and live; this is the condition
of the collection-insert pattern used by `vpc_update_firewall_rules`
(spec section 4.7: insert into child table only if parent row is live). -/
def vpcIsLive (db : DbState) (vpcId : Nat) : Bool :=
  db.vpcs.any fun v => decide (v.id = vpcId ∧ v.timeDeleted = none)

/-- The `firewall_gen` bump performed on the parent row by a successful
collection insert (spec section 4.7). -/
def bumpFirewallGen (vpcs : List VpcRow) (vpcId : Nat) : List VpcRow :=
  vpcs.map fun v =>
    if v.id = vpcId ∧ v.timeDeleted = none then
      { v with firewallGen := v.firewallGen + 1 }
    else v

/-- `vpc_update_firewall_rules` (vpc.rs lines 559-645). The transaction body:
sort the new rules by name; soft-delete every live rule of the VPC; if the
new list is empty return `[]`; otherwise collection-insert the new rules
conditional on the parent VPC row being live (on `CollectionNotFound` the
transaction is rolled back and the error surfaces as `NotFound(Vpc)`).
The collection-insert pattern and the transaction-retry wrapper are
modelled from spec sections 4.4 and 4.7 (their code lives outside the
sampled sources); retries do not change the committed outcome, so the
operation is one atomic state transition, with the input state returned
unchanged on failure. -/
def vpc_update_firewall_rules (db : DbState) (vpcId : Nat)
    (rules : List FirewallRuleRow) (now : Nat) :
    Except OpError (List FirewallRuleRow) × DbState :=
  let sorted := sortRulesByName rules
  let deleted := softDeleteVpcRules db.firewallRules vpcId now
  if sorted.isEmpty then
    (.ok [], { db with firewallRules := deleted })
  else if vpcIsLive db vpcId then
    (.ok sorted,
      { db with
          firewallRules := deleted ++ sorted
          vpcs := bumpFirewallGen db.vpcs vpcId })
  else
    (.error (.objectNotFound .vpc vpcId), db)

/-- Whether the VPC has a live subnet; the precondition check of
`project_delete_vpc` (vpc.rs lines 466-482). -/
def hasLiveSubnet (db : DbState) (vpcId : Nat) : Bool :=
  db.subnets.any fun s => decide (s.vpcId = vpcId ∧ s.timeDeleted = none)

/-- The row condition of the conditional soft-delete of `project_delete_vpc`
(vpc.rs lines 486-490): live, this id, and `subnet_gen` equal to the
caller's snapshot. -/
def deleteVpcHit (vpcId snapshotSubnetGen : Nat) (v : VpcRow) : Bool :=
  decide (v.timeDeleted = none ∧ v.id = vpcId ∧ v.subnetGen = snapshotSubnetGen)

/-- `project_delete_vpc` (vpc.rs lines 440-506): refuse when a live subnet
exists; otherwise soft-delete the VPC row conditional on `subnet_gen` being
unchanged, and report concurrent modification when zero rows were updated. -/
def project_delete_vpc (db : DbState) (vpcId snapshotSubnetGen now : Nat) :
    Except OpError Unit × DbState :=
  if hasLiveSubnet db vpcId then
    (.error (.invalidRequest "VPC cannot be deleted while VPC Subnets exist"), db)
  else if db.vpcs.countP (deleteVpcHit vpcId snapshotSubnetGen) = 0 then
    (.error (.invalidRequest "deletion failed due to concurrent modification"), db)
  else
    (.ok (),
      { db with
          vpcs := db.vpcs.map fun v =>
            if deleteVpcHit vpcId snapshotSubnetGen v then
              { v with timeDeleted := some now }
            else v })

/-- `vpc_delete_router` (vpc.rs lines 976-998): soft-delete the live router
row with this id; no check of the router's kind is performed and no error
other than a database failure can occur. -/
def vpc_delete_router (db : DbState) (routerId now : Nat) :
    Except OpError Unit × DbState :=
  (.ok (),
    { db with
        routers := db.routers.map fun r =>
          if r.timeDeleted = none ∧ r.id = routerId then
            { r with timeDeleted := some now }
          else r })

/-- Whether a live router row with this id exists. -/
def routerIsLive (db : DbState) (routerId : Nat) : Bool :=
  db.routers.any fun r => decide (r.id = routerId ∧ r.timeDeleted = none)

/-! ## VNI allocator (`project_create_vpc` / `project_create_vpc_raw`) -/

/-- The kinds of diesel database error distinguished by
`project_create_vpc_raw`. -/
inductive DieselErrorKind
  | notNullViolation
  | uniqueViolation
  | otherKind
deriving DecidableEq, Repr

/-- The outcome of the single `INSERT INTO vpc` statement submitted by
`project_create_vpc_raw` for one VNI search window: the inserted row, the
collection-insert `CollectionNotFound` (project gone), or a database error
with its kind and message. -/
inductive InsertVpcResult
  | inserted (vpc : VpcRow)
  | collectionNotFound
  | databaseError (kind : DieselErrorKind) (message : String)
deriving DecidableEq, Repr

/-- `project_create_vpc_raw` (vpc.rs lines 357-414) as a function of the
insert outcome: a successful insert yields `Ok(Some(vpc))`;
`CollectionNotFound` becomes `NotFound(Project)`; a `NotNullViolation`
whose message starts with `null value in column "vni"` yields `Ok(None)`
(no free VNI in this window); every other database error is surfaced as an
error (`public_error_from_diesel` with the `Conflict(Vpc, name)` handler,
modelled from spec section 7 as a `Conflict` error). -/
def project_create_vpc_raw (projectId : Nat) (name : String)
    (result : InsertVpcResult) : Except OpError (Option VpcRow) :=
  match result with
  | .inserted vpc => .ok (some vpc)
  | .collectionNotFound => .error (.objectNotFound .project projectId)
  | .databaseError kind message =>
    if kind = DieselErrorKind.notNullViolation
        ∧ message.startsWith "null value in column \"vni\"" = true then
      .ok none
    else
      .error (.conflict .vpc name)

/-- `project_create_vpc` (vpc.rs lines 297-350). The VNI window iterator
`VniSearchIter` is modelled from the spec: spec section 4.1 makes it a
bounded lazy sequence of at most `MAX_VNI_SEARCH_RANGE_SIZE` windows, so
the loop is a fold over a finite list carrying the insert outcome of each
window; exhausting the list surfaces the capacity error of vpc.rs
lines 346-349. -/
def project_create_vpc (projectId : Nat) (name : String)
    (attempts : List InsertVpcResult) : Except OpError VpcRow :=
  match attempts with
  | [] => .error (.insufficientCapacity "No free virtual network was found"
      "Failed to find a free VNI for this VPC")
  | a :: rest =>
    match project_create_vpc_raw projectId name a with
    | .ok (some vpc) => .ok vpc
    | .error e => .error e
    | .ok none => project_create_vpc projectId name rest

/-! ## Concrete states used by witnesses and counterexamples -/

/-- A live VPC row with id 1 and `subnet_gen` 3. -/
def exVpcRow : VpcRow :=
  { id := 1, timeDeleted := none, subnetGen := 3, firewallGen := 0,
    systemRouterId := 7 }

/-- A state holding the single live VPC `exVpcRow` and nothing else. -/
def exFwDb : DbState :=
  { vpcs := [exVpcRow], subnets := [], firewallRules := [], routers := [] }

/-- A live firewall rule of VPC 1. -/
def exRule : FirewallRuleRow :=
  { id := 10, vpcId := 1, name := "allow-ssh", timeDeleted := none }

/-- The state after replacing VPC 1's rules with `[exRule]` in `exFwDb`. -/
def exFwDbAfter : DbState :=
  { vpcs := [{ exVpcRow with firewallGen := 1 }], subnets := [],
    firewallRules := [exRule], routers := [] }

/-- A state whose only VPC row (id 1) is soft-deleted. -/
def exDeadVpcDb : DbState :=
  { vpcs := [{ exVpcRow with timeDeleted := some 2 }], subnets := [],
    firewallRules := [], routers := [] }

/-- A state holding VPC 1 (whose `system_router_id` is 7) together with its
live System router, row id 7. -/
def exRouterDb : DbState :=
  { vpcs := [exVpcRow], subnets := [], firewallRules := [],
    routers := [{ id := 7, vpcId := 1, kind := .system, timeDeleted := none }] }

/-- The message of a diesel not-null violation on the `vni` column. -/
def exNoVniMsg : String :=
  "null value in column \"vni\" violates not-null constraint"

/-- The insert outcome of a window with no free VNI. -/
def exNoVniResult : InsertVpcResult :=
  .databaseError .notNullViolation exNoVniMsg

/-! ## Theorems -/

/-- Claim C2: for every sled policy, sled state and sled filter,
`SledFilter::matches_policy_and_state(policy, state)` equals
`policy.matches(filter) && state.matches(filter)`, and the two conjuncts
realise exactly the section 4.6 truth tables (written out in
`specPolicyTable` and `specStateTable`). -/
theorem sled_filter_product_law (p : SledPolicy) (s : SledState) (f : SledFilter) :
    SledFilter.matchesPolicyAndState f p s = (p.matches f && s.matches f)
    ∧ p.matches f = specPolicyTable p f
    ∧ s.matches f = specStateTable s f := by
  refine ⟨rfl, ?_, ?_⟩
  · cases p with
    | inService pp => cases pp <;> cases f <;> rfl
    | expunged => cases f <;> rfl
  · cases s <;> cases f <;> rfl

/-- Soft-deleting the rules of a VPC twice changes nothing after the first
application: rows hit by the first pass are no longer live, rows missed by
the first pass are missed again. -/
theorem softDeleteVpcRules_idem (l : List FirewallRuleRow) (vpcId t1 t2 : Nat) :
    softDeleteVpcRules (softDeleteVpcRules l vpcId t1) vpcId t2
      = softDeleteVpcRules l vpcId t1 := by
  unfold softDeleteVpcRules
  rw [List.map_map]
  apply List.map_congr_left
  intro r _
  by_cases h : r.timeDeleted = none ∧ r.vpcId = vpcId
  · simp [h]
  · simp [h]

/-- Claim C9: applying `vpc_delete_all_firewall_rules` twice in succession
yields the same observable state as applying it once. -/
theorem vpc_delete_all_firewall_rules_idempotent (db : DbState) (vpcId t1 t2 : Nat) :
    vpc_delete_all_firewall_rules
        (vpc_delete_all_firewall_rules db vpcId t1).2 vpcId t2
      = vpc_delete_all_firewall_rules db vpcId t1 := by
  unfold vpc_delete_all_firewall_rules
  simp [softDeleteVpcRules_idem]

/-- Claim C10: `vpc_update_firewall_rules` with an empty rule list
soft-deletes every live rule of the VPC and returns `Ok([])` without
reaching the parent-liveness collection insert, for every state — in
particular also when the VPC row is soft-deleted or absent — and therefore
never returns `NotFound(Vpc)` in the empty case. -/
theorem vpc_update_firewall_rules_empty_list (db : DbState) (vpcId now : Nat) :
    vpc_update_firewall_rules db vpcId [] now
      = (.ok [],
          { db with
              firewallRules := softDeleteVpcRules db.firewallRules vpcId now }) := by
  simp [vpc_update_firewall_rules, sortRulesByName]

/-- Claim C7: a database not-null violation on the `vni` column (message
starting with `null value in column "vni"`) makes
`project_create_vpc_raw` return `Ok(None)`, signalling the allocator to
advance to the next window; every other database error is returned in the
`Err` variant. -/
theorem project_create_vpc_raw_vni_null_signal (projectId : Nat)
    (name message : String) (kind : DieselErrorKind) :
    (kind = .notNullViolation
        ∧ message.startsWith "null value in column \"vni\"" = true →
      project_create_vpc_raw projectId name (.databaseError kind message)
        = .ok none)
    ∧ (¬(kind = .notNullViolation
        ∧ message.startsWith "null value in column \"vni\"" = true) →
      project_create_vpc_raw projectId name (.databaseError kind message)
        = .error (.conflict .vpc name)) := by
  constructor
  · intro h
    show (if kind = DieselErrorKind.notNullViolation
        ∧ message.startsWith "null value in column \"vni\"" = true then
          (.ok none : Except OpError (Option VpcRow))
        else .error (.conflict .vpc name)) = .ok none
    rw [if_pos h]
  · intro h
    show (if kind = DieselErrorKind.notNullViolation
        ∧ message.startsWith "null value in column \"vni\"" = true then
          (.ok none : Except OpError (Option VpcRow))
        else .error (.conflict .vpc name)) = .error (.conflict .vpc name)
    rw [if_neg h]

set_option maxRecDepth 40000 in
unseal String.substrEq.loop in
theorem project_create_vpc_raw_vni_null_signal_witness :
    (DieselErrorKind.notNullViolation = DieselErrorKind.notNullViolation
      ∧ exNoVniMsg.startsWith "null value in column \"vni\"" = true)
    ∧ project_create_vpc_raw 5 "vpc0" (.databaseError .notNullViolation exNoVniMsg)
        = .ok none := by
  have h : DieselErrorKind.notNullViolation = DieselErrorKind.notNullViolation
      ∧ exNoVniMsg.startsWith "null value in column \"vni\"" = true :=
    ⟨rfl, by decide⟩
  exact ⟨h,
    (project_create_vpc_raw_vni_null_signal 5 "vpc0" exNoVniMsg .notNullViolation).1 h⟩

/-- Windows whose insert reports no free VNI are skipped by the
`project_create_vpc` search loop. -/
theorem project_create_vpc_skip_exhausted (projectId : Nat) (name : String)
    (pre rest : List InsertVpcResult)
    (hpre : ∀ x ∈ pre, project_create_vpc_raw projectId name x = .ok none) :
    project_create_vpc projectId name (pre ++ rest)
      = project_create_vpc projectId name rest := by
  induction pre with
  | nil => rfl
  | cons a l ih =>
    have ha := hpre a (List.mem_cons_self a l)
    rw [List.cons_append, project_create_vpc, ha]
    exact ih fun x hx => hpre x (List.mem_cons_of_mem a hx)

/-- Claim C6: when every window attempt reports no free VNI,
`project_create_vpc` returns the `InsufficientCapacity` error after
exhausting the windows; the first window whose insert succeeds makes it
return that VPC; any other error from an attempt is returned immediately
without trying further windows. -/
theorem project_create_vpc_window_search (projectId : Nat) (name : String)
    (attempts : List InsertVpcResult) :
    ((∀ a ∈ attempts, project_create_vpc_raw projectId name a = .ok none) →
      project_create_vpc projectId name attempts
        = .error (.insufficientCapacity "No free virtual network was found"
            "Failed to find a free VNI for this VPC"))
    ∧ (∀ pre a rest vpc, attempts = pre ++ a :: rest →
        (∀ x ∈ pre, project_create_vpc_raw projectId name x = .ok none) →
        project_create_vpc_raw projectId name a = .ok (some vpc) →
        project_create_vpc projectId name attempts = .ok vpc)
    ∧ (∀ pre a rest err, attempts = pre ++ a :: rest →
        (∀ x ∈ pre, project_create_vpc_raw projectId name x = .ok none) →
        project_create_vpc_raw projectId name a = .error err →
        project_create_vpc projectId name attempts = .error err) := by
  refine ⟨?_, ?_, ?_⟩
  · intro h
    have := project_create_vpc_skip_exhausted projectId name attempts [] h
    simpa using this
  · intro pre a rest vpc hsplit hpre ha
    subst hsplit
    rw [project_create_vpc_skip_exhausted projectId name pre (a :: rest) hpre,
      project_create_vpc, ha]
  · intro pre a rest err hsplit hpre ha
    subst hsplit
    rw [project_create_vpc_skip_exhausted projectId name pre (a :: rest) hpre,
      project_create_vpc, ha]

set_option maxRecDepth 40000 in
unseal String.substrEq.loop in
theorem project_create_vpc_window_search_witness :
    ([exNoVniResult, .inserted exVpcRow]
        = [exNoVniResult] ++ InsertVpcResult.inserted exVpcRow :: [])
    ∧ (∀ x ∈ [exNoVniResult], project_create_vpc_raw 5 "vpc0" x = .ok none)
    ∧ project_create_vpc_raw 5 "vpc0" (.inserted exVpcRow) = .ok (some exVpcRow)
    ∧ project_create_vpc 5 "vpc0" [exNoVniResult, .inserted exVpcRow]
        = .ok exVpcRow := by
  have hraw : project_create_vpc_raw 5 "vpc0" exNoVniResult = .ok none := by
    have hsw : exNoVniMsg.startsWith "null value in column \"vni\"" = true := by
      decide
    show (if DieselErrorKind.notNullViolation = DieselErrorKind.notNullViolation
        ∧ exNoVniMsg.startsWith "null value in column \"vni\"" = true then
          (.ok none : Except OpError (Option VpcRow))
        else .error (.conflict .vpc "vpc0")) = .ok none
    rw [if_pos ⟨rfl, hsw⟩]
  have hpre : ∀ x ∈ [exNoVniResult], project_create_vpc_raw 5 "vpc0" x = .ok none := by
    intro x hx
    rw [List.mem_singleton] at hx
    subst hx
    exact hraw
  exact ⟨rfl, hpre, rfl,
    (project_create_vpc_window_search 5 "vpc0" _).2.1 [exNoVniResult]
      (.inserted exVpcRow) [] exVpcRow rfl hpre rfl⟩

/-- A sorted rule list is non-empty exactly when the input list is. -/
theorem sortRulesByName_isEmpty (rules : List FirewallRuleRow) :
    (sortRulesByName rules).isEmpty = rules.isEmpty := by
  rcases rules with _ | ⟨a, l⟩
  · simp [sortRulesByName]
  · have : sortRulesByName (a :: l) ≠ [] := by
      intro h
      have := congrArg List.length h
      simp [sortRulesByName] at this
    simp [List.isEmpty_eq_false.mpr this]

/-- Claim C4: when the rule list is non-empty and the parent VPC row is
missing or soft-deleted at insert time, `vpc_update_firewall_rules` aborts
the whole transaction, returns `NotFound(Vpc)` (the collection-insert
`CollectionNotFound` surfaced as `NotFound`), and inserts no rules: the
state is returned unchanged. -/
theorem vpc_update_firewall_rules_parent_gone (db : DbState) (vpcId now : Nat)
    (rules : List FirewallRuleRow) (hne : rules ≠ [])
    (hdead : vpcIsLive db vpcId = false) :
    vpc_update_firewall_rules db vpcId rules now
      = (.error (.objectNotFound .vpc vpcId), db) := by
  have hse : (sortRulesByName rules).isEmpty = false := by
    rw [sortRulesByName_isEmpty, List.isEmpty_eq_false]
    exact hne
  simp [vpc_update_firewall_rules, hse, hdead]

theorem vpc_update_firewall_rules_parent_gone_witness :
    ([exRule] ≠ []) ∧ vpcIsLive exDeadVpcDb 1 = false
    ∧ vpc_update_firewall_rules exDeadVpcDb 1 [exRule] 5
        = (.error (.objectNotFound .vpc 1), exDeadVpcDb) :=
  ⟨by simp, by decide,
    vpc_update_firewall_rules_parent_gone exDeadVpcDb 1 5 [exRule]
      (by simp) (by decide)⟩

/-- Claim C5: `project_delete_vpc` fails with
`invalid_request("VPC cannot be deleted while VPC Subnets exist")` and
leaves the state unchanged whenever the VPC has a live subnet; with no
live subnet, the delete sets `time_deleted` only on a row that is still
live with `subnet_gen` equal to the caller's snapshot, and returns
`invalid_request("deletion failed due to concurrent modification")` when
that conditional update changes zero rows; a successful delete implies the
VPC has no live subnets at commit. -/
theorem project_delete_vpc_spec (db : DbState) (vpcId snapGen now : Nat) :
    (hasLiveSubnet db vpcId = true →
      project_delete_vpc db vpcId snapGen now
        = (.error (.invalidRequest "VPC cannot be deleted while VPC Subnets exist"),
            db))
    ∧ (hasLiveSubnet db vpcId = false →
        (db.vpcs.countP (deleteVpcHit vpcId snapGen) = 0 →
          project_delete_vpc db vpcId snapGen now
            = (.error
                (.invalidRequest "deletion failed due to concurrent modification"),
                db))
        ∧ (db.vpcs.countP (deleteVpcHit vpcId snapGen) ≠ 0 →
          project_delete_vpc db vpcId snapGen now
            = (.ok (),
                { db with
                    vpcs := db.vpcs.map fun v =>
                      if deleteVpcHit vpcId snapGen v then
                        { v with timeDeleted := some now }
                      else v })))
    ∧ (∀ db2, project_delete_vpc db vpcId snapGen now = (.ok (), db2) →
        hasLiveSubnet db2 vpcId = false) := by
  refine ⟨?_, ?_, ?_⟩
  · intro h
    simp [project_delete_vpc, h]
  · intro h
    constructor
    · intro hc
      simp [project_delete_vpc, h, hc]
    · intro hc
      simp [project_delete_vpc, h, hc]
  · intro db2 hok
    by_cases h1 : hasLiveSubnet db vpcId = true
    · simp [project_delete_vpc, h1] at hok
    · have h1f : hasLiveSubnet db vpcId = false := by
        cases hx : hasLiveSubnet db vpcId
        · rfl
        · exact absurd hx h1
      by_cases h2 : db.vpcs.countP (deleteVpcHit vpcId snapGen) = 0
      · simp [project_delete_vpc, h1f, h2] at hok
      · simp only [project_delete_vpc, h1f, Bool.false_eq_true, if_false,
          if_neg h2, Prod.mk.injEq] at hok
        obtain ⟨-, hdb⟩ := hok
        subst hdb
        exact h1f

theorem project_delete_vpc_spec_witness :
    hasLiveSubnet exFwDb 1 = false
    ∧ exFwDb.vpcs.countP (deleteVpcHit 1 3) ≠ 0
    ∧ project_delete_vpc exFwDb 1 3 9
        = (.ok (),
            { exFwDb with
                vpcs := exFwDb.vpcs.map fun v =>
                  if deleteVpcHit 1 3 v then { v with timeDeleted := some 9 }
                  else v }) := by
  refine ⟨by decide, by decide, ?_⟩
  exact ((project_delete_vpc_spec exFwDb 1 3 9).2.1 (by decide)).2 (by decide)

/-- Claim C8 counterexample: in `exRouterDb` the VPC's `system_router_id`
is 7 and router 7 is a live System router, yet `vpc_delete_router` on
router 7 returns `Ok` and leaves the router soft-deleted — the datastore
performs no check of the router's kind, refuting the claim that the call
fails and leaves the router live. -/
theorem vpc_delete_router_system_counterexample :
    (∃ v ∈ exRouterDb.vpcs, v.systemRouterId = 7)
    ∧ (∃ r ∈ exRouterDb.routers,
        r.id = 7 ∧ r.kind = .system ∧ r.timeDeleted = none)
    ∧ (vpc_delete_router exRouterDb 7 5).1 = .ok ()
    ∧ routerIsLive (vpc_delete_router exRouterDb 7 5).2 7 = false := by
  refine ⟨by decide, by decide, rfl, by decide⟩

/-- Claim C8 (amended): `vpc_delete_router` unconditionally succeeds and
soft-deletes the targeted live router regardless of its kind — including
the VPC's System router; the System-router protection is not enforced by
this datastore function. -/
theorem vpc_delete_router_no_kind_check (db : DbState) (routerId now : Nat)
    (r : VpcRouterRow) (hr : r ∈ db.routers) (hid : r.id = routerId)
    (hlive : r.timeDeleted = none) :
    (vpc_delete_router db routerId now).1 = .ok ()
    ∧ { r with timeDeleted := some now }
        ∈ (vpc_delete_router db routerId now).2.routers := by
  refine ⟨rfl, ?_⟩
  show { r with timeDeleted := some now }
    ∈ db.routers.map fun rr =>
        if rr.timeDeleted = none ∧ rr.id = routerId then
          { rr with timeDeleted := some now }
        else rr
  refine List.mem_map.mpr ⟨r, hr, ?_⟩
  show (if r.timeDeleted = none ∧ r.id = routerId then
      { r with timeDeleted := some now }
    else r) = { r with timeDeleted := some now }
  rw [if_pos ⟨hlive, hid⟩]

/-- `fwLe` is transitive (names compare in a linear order). -/
theorem fwLe_trans : ∀ a b c : FirewallRuleRow, fwLe a b → fwLe b c → fwLe a c := by
  intro a b c hab hbc
  simp only [fwLe, decide_eq_true_eq] at *
  exact le_trans hab hbc

/-- `fwLe` is total. -/
theorem fwLe_total : ∀ a b : FirewallRuleRow, fwLe a b || fwLe b a := by
  intro a b
  simp only [fwLe, Bool.or_eq_true, decide_eq_true_eq]
  exact le_total a.name b.name

/-- The output of `sortRulesByName` is sorted by name ascending. -/
theorem sortRulesByName_sorted (rules : List FirewallRuleRow) :
    (sortRulesByName rules).Pairwise fun a b => fwLe a b = true :=
  List.sorted_mergeSort fwLe_trans fwLe_total rules

/-- Sorting an already sorted rule list changes nothing. -/
theorem sortRulesByName_mergeSort_self (rules : List FirewallRuleRow) :
    (sortRulesByName rules).mergeSort fwLe = sortRulesByName rules :=
  List.mergeSort_of_sorted (sortRulesByName_sorted rules)

/-- After the bulk soft-delete, no row of the table passes the live-rule
filter of this VPC. -/
theorem liveVpcRule_softDelete (l : List FirewallRuleRow) (vpcId now : Nat) :
    ∀ x ∈ softDeleteVpcRules l vpcId now, liveVpcRule vpcId x = false := by
  intro x hx
  obtain ⟨r, hr, rfl⟩ := List.mem_map.mp hx
  by_cases h : r.timeDeleted = none ∧ r.vpcId = vpcId <;> simp [liveVpcRule, h]

/-- Filtering the soft-deleted table for live rules of the VPC yields
nothing. -/
theorem filter_softDeleteVpcRules (l : List FirewallRuleRow) (vpcId now : Nat) :
    (softDeleteVpcRules l vpcId now).filter (liveVpcRule vpcId) = [] :=
  List.filter_eq_nil_iff.mpr (by
    intro a ha
    simp [liveVpcRule_softDelete l vpcId now a ha])

/-- Claim C3: when `vpc_update_firewall_rules` succeeds it returns the new
rules sorted by name ascending, every previously live rule of the VPC is
soft-deleted in the resulting state, and `vpc_list_firewall_rules` in that
state returns exactly the sorted new rules; when the call fails, the state
(and hence the prior live rule set) is unchanged. -/
theorem vpc_update_firewall_rules_replacement (db : DbState) (vpcId now : Nat)
    (rules : List FirewallRuleRow)
    (hvpc : ∀ r ∈ rules, r.vpcId = vpcId)
    (hlive : ∀ r ∈ rules, r.timeDeleted = none) :
    (∀ out db2,
      vpc_update_firewall_rules db vpcId rules now = (.ok out, db2) →
        out = sortRulesByName rules
        ∧ (∀ r ∈ db.firewallRules, r.timeDeleted = none → r.vpcId = vpcId →
            { r with timeDeleted := some now } ∈ db2.firewallRules)
        ∧ vpc_list_firewall_rules db2 vpcId = sortRulesByName rules)
    ∧ (∀ err db2,
      vpc_update_firewall_rules db vpcId rules now = (.error err, db2) →
        db2 = db) := by
  have hmemdel : ∀ r ∈ db.firewallRules, r.timeDeleted = none → r.vpcId = vpcId →
      { r with timeDeleted := some now }
        ∈ softDeleteVpcRules db.firewallRules vpcId now := by
    intro r hr h1 h2
    refine List.mem_map.mpr ⟨r, hr, ?_⟩
    show (if r.timeDeleted = none ∧ r.vpcId = vpcId then
        { r with timeDeleted := some now }
      else r) = { r with timeDeleted := some now }
    rw [if_pos ⟨h1, h2⟩]
  have hfilter_sorted :
      (sortRulesByName rules).filter (liveVpcRule vpcId) = sortRulesByName rules := by
    refine List.filter_eq_self.mpr ?_
    intro a ha
    have hmem : a ∈ rules := by
      have := List.mem_mergeSort.mp ha
      exact this
    exact decide_eq_true ⟨hlive a hmem, hvpc a hmem⟩
  by_cases hE : (sortRulesByName rules).isEmpty = true
  · have hrules : rules = [] := by
      rw [sortRulesByName_isEmpty] at hE
      exact List.isEmpty_iff.mp hE
    subst hrules
    have hred : vpc_update_firewall_rules db vpcId [] now
        = (.ok [],
            { db with
                firewallRules := softDeleteVpcRules db.firewallRules vpcId now }) := by
      simp [vpc_update_firewall_rules, sortRulesByName]
    constructor
    · intro out db2 h
      rw [hred] at h
      obtain ⟨h1, h2⟩ := Prod.mk.injEq .. ▸ h
      obtain rfl : out = [] := (Except.ok.injEq .. ▸ h1).symm
      subst h2
      refine ⟨by simp [sortRulesByName], hmemdel, ?_⟩
      show (((softDeleteVpcRules db.firewallRules vpcId now).filter
          (liveVpcRule vpcId)).mergeSort fwLe) = sortRulesByName []
      rw [filter_softDeleteVpcRules]
      simp [sortRulesByName]
    · intro err db2 h
      rw [hred] at h
      exact absurd (Prod.mk.injEq .. ▸ h).1 (by simp)
  · have hE' : (sortRulesByName rules).isEmpty = false := by
      cases hx : (sortRulesByName rules).isEmpty
      · rfl
      · exact absurd hx hE
    by_cases hL : vpcIsLive db vpcId = true
    · have hred : vpc_update_firewall_rules db vpcId rules now
          = (.ok (sortRulesByName rules),
              { db with
                  firewallRules :=
                    softDeleteVpcRules db.firewallRules vpcId now
                      ++ sortRulesByName rules
                  vpcs := bumpFirewallGen db.vpcs vpcId }) := by
        simp [vpc_update_firewall_rules, hE', hL]
      constructor
      · intro out db2 h
        rw [hred] at h
        obtain ⟨h1, h2⟩ := Prod.mk.injEq .. ▸ h
        obtain rfl : out = sortRulesByName rules := (Except.ok.injEq .. ▸ h1).symm
        subst h2
        refine ⟨rfl, ?_, ?_⟩
        · intro r hr hr1 hr2
          exact List.mem_append_left _ (hmemdel r hr hr1 hr2)
        · show (((softDeleteVpcRules db.firewallRules vpcId now
              ++ sortRulesByName rules).filter (liveVpcRule vpcId)).mergeSort
                fwLe) = sortRulesByName rules
          rw [List.filter_append, filter_softDeleteVpcRules, hfilter_sorted,
            List.nil_append]
          exact sortRulesByName_mergeSort_self rules
      · intro err db2 h
        rw [hred] at h
        exact absurd (Prod.mk.injEq .. ▸ h).1 (by simp)
    · have hLf : vpcIsLive db vpcId = false := by
        cases hx : vpcIsLive db vpcId
        · rfl
        · exact absurd hx hL
      have hred : vpc_update_firewall_rules db vpcId rules now
          = (.error (.objectNotFound .vpc vpcId), db) := by
        simp [vpc_update_firewall_rules, hE', hLf]
      constructor
      · intro out db2 h
        rw [hred] at h
        exact absurd (Prod.mk.injEq .. ▸ h).1 (by simp)
      · intro err db2 h
        rw [hred] at h
        exact ((Prod.mk.injEq .. ▸ h).2).symm

/-- Evaluation of the replacement on the concrete state `exFwDb`. -/
theorem exFwDb_update_eval :
    vpc_update_firewall_rules exFwDb 1 [exRule] 5 = (.ok [exRule], exFwDbAfter) := by
  simp [vpc_update_firewall_rules, sortRulesByName, softDeleteVpcRules, vpcIsLive,
    bumpFirewallGen, exFwDb, exVpcRow, exRule, exFwDbAfter]

theorem vpc_update_firewall_rules_replacement_witness :
    (∀ r ∈ [exRule], r.vpcId = 1) ∧ (∀ r ∈ [exRule], r.timeDeleted = none)
    ∧ vpc_list_firewall_rules exFwDbAfter 1 = sortRulesByName [exRule] := by
  refine ⟨by simp [exRule], by simp [exRule], ?_⟩
  exact ((vpc_update_firewall_rules_replacement exFwDb 1 5 [exRule]
      (by simp [exRule]) (by simp [exRule])).1 [exRule] exFwDbAfter
      exFwDb_update_eval).2.2

/-- Membership in the guest query: a sled row of the `sled` table reachable
through the instance-NIC / instance / VMM joins. -/
theorem mem_instanceQuery {db : ResolverDb} {vpcId : Nat} {sled : SledRow} :
    sled ∈ instanceQuery db vpcId
      ↔ sled ∈ db.sleds ∧ guestPathSled db vpcId sled := by
  simp only [instanceQuery, guestPathSled, List.mem_flatMap, List.mem_filterMap,
    Option.ite_none_right_eq_some, Option.some.injEq]
  constructor
  · rintro ⟨nic, hnic, inst, hinst, vmm, hvmm, s, hs, hcond, rfl⟩
    exact ⟨hs, nic, hnic, inst, hinst, vmm, hvmm, hcond⟩
  · rintro ⟨hs, nic, hnic, inst, hinst, vmm, hvmm, hcond⟩
    exact ⟨nic, hnic, inst, hinst, vmm, hvmm, sled, hs, hcond, rfl⟩

/-- Membership in the service query: a sled row reachable through the
service-NIC / blueprint-zone / maximum-version-target joins. -/
theorem mem_serviceQuery {db : ResolverDb} {vpcId : Nat} {sled : SledRow} :
    sled ∈ serviceQuery db vpcId
      ↔ sled ∈ db.sleds ∧ servicePathSled db vpcId sled := by
  simp only [serviceQuery, servicePathSled, List.mem_flatMap, List.mem_filterMap,
    Option.ite_none_right_eq_some, Option.some.injEq]
  constructor
  · rintro ⟨nic, hnic, zone, hzone, target, htarget, s, hs, hcond, rfl⟩
    exact ⟨hs, nic, hnic, zone, hzone, target, htarget, hcond⟩
  · rintro ⟨hs, nic, hnic, zone, hzone, target, htarget, hcond⟩
    exact ⟨nic, hnic, zone, hzone, target, htarget, sled, hs, hcond, rfl⟩

/-- Membership in the base sleds query: live, passing `VpcFirewall`, and in
the allow-list when one is given. -/
theorem mem_vpcFirewallSleds {db : ResolverDb} {sledsFilter : List Nat}
    {sled : SledRow} :
    sled ∈ vpcFirewallSleds db sledsFilter
      ↔ sled ∈ db.sleds ∧ sled.timeDeleted = none
        ∧ sledRowMatchesFilter .vpcFirewall sled = true
        ∧ (sledsFilter = [] ∨ sled.id ∈ sledsFilter) := by
  simp [vpcFirewallSleds, List.mem_filter, Bool.and_eq_true, decide_eq_true_eq,
    Bool.or_eq_true, List.isEmpty_iff, and_assoc]

/-- Membership in a SQL `UNION`. -/
theorem mem_sqlUnion {xs ys : List SledRow} {x : SledRow} :
    x ∈ sqlUnion xs ys ↔ x ∈ xs ∨ x ∈ ys := by
  simp [sqlUnion, List.mem_dedup]

/-- Membership in a SQL `INTERSECT`. -/
theorem mem_sqlIntersect {xs ys : List SledRow} {x : SledRow} :
    x ∈ sqlIntersect xs ys ↔ x ∈ xs ∧ x ∈ ys := by
  simp [sqlIntersect, List.mem_dedup, List.mem_filter]

/-- Reassigning every `enabled` flag leaves the service query unchanged:
the query never reads the column. -/
theorem serviceQuery_setEnabled (db : ResolverDb) (e : BpTargetRow → Bool)
    (vpcId : Nat) :
    serviceQuery (setEnabled db e) vpcId = serviceQuery db vpcId := by
  unfold serviceQuery setEnabled
  simp only [List.flatMap_map, List.forall_mem_map]

/-- Reassigning every `enabled` flag leaves the resolver output unchanged. -/
theorem vpc_resolve_setEnabled (db : ResolverDb) (e : BpTargetRow → Bool)
    (vpcId : Nat) (sledsFilter : List Nat) :
    vpc_resolve_to_sleds (setEnabled db e) vpcId sledsFilter
      = vpc_resolve_to_sleds db vpcId sledsFilter := by
  unfold vpc_resolve_to_sleds
  rw [serviceQuery_setEnabled]
  rfl

/-- Claim C1: `vpc_resolve_to_sleds` returns exactly the live sleds matching
the `VpcFirewall` filter, intersected with the allow-list when non-empty,
intersected with the union of the guest path and the service path (the
maximum-version target blueprint, dispositions InService/Quiesced only);
the `enabled` flag of `bp_target` never affects the result; the result has
no duplicate sleds. -/
theorem vpc_resolve_to_sleds_spec (db : ResolverDb) (vpcId : Nat)
    (sledsFilter : List Nat) (e : BpTargetRow → Bool) :
    (∀ sled, sled ∈ vpc_resolve_to_sleds db vpcId sledsFilter ↔
      sled ∈ db.sleds ∧ sled.timeDeleted = none
      ∧ SledFilter.vpcFirewall.matchesPolicyAndState sled.policy sled.state = true
      ∧ (sledsFilter = [] ∨ sled.id ∈ sledsFilter)
      ∧ (guestPathSled db vpcId sled ∨ servicePathSled db vpcId sled))
    ∧ (vpc_resolve_to_sleds db vpcId sledsFilter).Nodup
    ∧ vpc_resolve_to_sleds (setEnabled db e) vpcId sledsFilter
        = vpc_resolve_to_sleds db vpcId sledsFilter := by
  refine ⟨?_, ?_, vpc_resolve_setEnabled db e vpcId sledsFilter⟩
  · intro sled
    rw [vpc_resolve_to_sleds, mem_sqlIntersect, mem_sqlUnion,
      mem_vpcFirewallSleds, mem_instanceQuery, mem_serviceQuery]
    unfold sledRowMatchesFilter
    tauto
  · exact List.nodup_dedup _

theorem vpc_delete_router_no_kind_check_witness :
    (⟨7, 1, .system, none⟩ : VpcRouterRow) ∈ exRouterDb.routers
    ∧ ((vpc_delete_router exRouterDb 7 5).1 = .ok ()
      ∧ ({ id := 7, vpcId := 1, kind := .system, timeDeleted := some 5 } :
            VpcRouterRow)
          ∈ (vpc_delete_router exRouterDb 7 5).2.routers) :=
  ⟨by decide,
    vpc_delete_router_no_kind_check exRouterDb 7 5 ⟨7, 1, .system, none⟩
      (by decide) rfl rfl⟩

end Omicron
